import Mathlib

/-!
Verification of the policy-gated request-orchestration engine.

Shallow embedding of the repository's core modules:
  * `schemas.py`  — the pydantic data model (`PolicyCheck`, `RoutingDecision`, `ActionResult`);
  * `tools.py`    — the execution gate `execute_tool_with_policy` and the two mock tools;
  * `router.py`   — the planning-gate synthesizer `orchestrate_route`;
  * `graph.py`    — the graph orchestrator node and the bounded action-agent loop.

Modelling conventions:
  * the Casbin enforcer is a function `Enforcer := String → String → String → Bool`
    standing for `enforcer.enforce(sub, obj, act)`;
  * the audit sink (`audit.py.log_event`) is modelled by state passing: every embedded
    operation returns the list of audit records it appends, in order; the
    nondeterministic `event_id` / `ts_epoch` fields added by `log_event` are abstracted
    away, the record keeps the event type and the payload dictionary;
  * Python exceptions are `Except String`; a `.error` value is a raised exception;
  * Python dictionaries with string keys and values are association lists;
  * to witness that a tool implementation body is or is not invoked, the dispatcher also
    returns the list of implementation invocations it performed (the call-counting stub
    that the specification itself prescribes for this check);
  * the internals of the two mock business tools are out of the specified scope and a
    tool implementation "may raise a failure", so the gate and the loop are
    parameterised by the implementation bodies (`ToolImpls`); the concrete mock bodies
    of `tools.py` are provided as the standard instance `mockImpls`.
-/

/-! ## Data model (schemas.py) -/

/-- The `Intent` literal type of `schemas.py`. -/
inductive Intent
  | informational
  | operational
  | privileged
  | ambiguous
deriving DecidableEq, Repr

/-- String value of an `Intent` literal. -/
def Intent.toStr : Intent → String
  | .informational => "informational"
  | .operational => "operational"
  | .privileged => "privileged"
  | .ambiguous => "ambiguous"

/-- The `RiskTier` literal type of `schemas.py`. -/
inductive RiskTier
  | low
  | medium
  | high
deriving DecidableEq, Repr

/-- String value of a `RiskTier` literal. -/
def RiskTier.toStr : RiskTier → String
  | .low => "low"
  | .medium => "medium"
  | .high => "high"

/-- The `RouteTo` literal type of `schemas.py`. -/
inductive RouteTo
  | knowledge_agent
  | action_agent
  | human_service_desk
deriving DecidableEq, Repr

/-- String value of a `RouteTo` literal. -/
def RouteTo.toStr : RouteTo → String
  | .knowledge_agent => "knowledge_agent"
  | .action_agent => "action_agent"
  | .human_service_desk => "human_service_desk"

/-- The `ToolClass` literal type of `schemas.py` (`"none" | "safe_tools" | "restricted_tools"`). -/
inductive ToolClass
  | none
  | safe_tools
  | restricted_tools
deriving DecidableEq, Repr

/-- String value of a `ToolClass` literal. -/
def ToolClass.toStr : ToolClass → String
  | .none => "none"
  | .safe_tools => "safe_tools"
  | .restricted_tools => "restricted_tools"

/-- The `DecisionType` literal type of `schemas.py` (`"allow" | "deny"`). -/
inductive DecisionType
  | allow
  | deny
deriving DecidableEq, Repr

/-- String value of a `DecisionType` literal. -/
def DecisionType.toStr : DecisionType → String
  | .allow => "allow"
  | .deny => "deny"

/-- `PolicyCheck` (schemas.py): the strict embedded policy-verdict record. -/
structure PolicyCheck where
  policy_obj : String
  policy_act : String
  allowed : Bool
  role : String
deriving DecidableEq, Repr

/-- `RoutingDecision` (schemas.py). `confidence` is a pydantic float in `[0,1]`; it is
modelled exactly as a rational number, which is faithful for every literal the code
produces (`0.85`, `0.65`). -/
structure RoutingDecision where
  intent : Intent
  risk_tier : RiskTier
  route_to : RouteTo
  required_prereqs : List String := []
  recommended_tools : ToolClass := ToolClass.none
  explanation : String
  confidence : Rat
  policy_check : PolicyCheck
deriving DecidableEq, Repr

/-- `ActionResult` (schemas.py). `args : Dict[str, str]` is an association list;
`output : Optional[str]` defaults to `None`. -/
structure ActionResult where
  executed : Bool
  tool : String
  args : List (String × String) := []
  decision : DecisionType
  reason : String
  output : Option String := Option.none
deriving DecidableEq, Repr

/-! ## Audit records (audit.py) -/

/-- JSON-like payload values of an audit record. -/
inductive JVal
  | s (v : String)
  | b (v : Bool)
  | num (v : Rat)
  | null
  | arr (vs : List JVal)
  | dict (kvs : List (String × JVal))

/-- An appended audit record: `log_event(event_type, payload)`. The `event_id` and
`ts_epoch` fields that `log_event` generates are nondeterministic (uuid / wall clock)
and abstracted away; the record keeps the event type and the caller's payload. -/
structure AuditRecord where
  event_type : String
  payload : List (String × JVal)

/-- Payload value of an `Optional[str]`. -/
def jOptStr : Option String → JVal
  | Option.none => JVal.null
  | Option.some s => JVal.s s

/-- Payload value of a `Dict[str, str]`. -/
def jStrDict (kvs : List (String × String)) : JVal :=
  JVal.dict (kvs.map (fun kv => (kv.1, JVal.s kv.2)))

/-- Payload value of a `List[str]`. -/
def jStrList (xs : List String) : JVal :=
  JVal.arr (xs.map JVal.s)

/-- `model_dump()` of a `PolicyCheck`. -/
def PolicyCheck.dump (pc : PolicyCheck) : JVal :=
  JVal.dict [("policy_obj", JVal.s pc.policy_obj), ("policy_act", JVal.s pc.policy_act),
    ("allowed", JVal.b pc.allowed), ("role", JVal.s pc.role)]

/-- `model_dump()` of a `RoutingDecision`. -/
def RoutingDecision.dump (d : RoutingDecision) : JVal :=
  JVal.dict [("intent", JVal.s d.intent.toStr), ("risk_tier", JVal.s d.risk_tier.toStr),
    ("route_to", JVal.s d.route_to.toStr), ("required_prereqs", jStrList d.required_prereqs),
    ("recommended_tools", JVal.s d.recommended_tools.toStr),
    ("explanation", JVal.s d.explanation), ("confidence", JVal.num d.confidence),
    ("policy_check", d.policy_check.dump)]

/-- `model_dump()` of an `ActionResult`. -/
def ActionResult.dump (r : ActionResult) : JVal :=
  JVal.dict [("executed", JVal.b r.executed), ("tool", JVal.s r.tool),
    ("args", jStrDict r.args), ("decision", JVal.s r.decision.toStr),
    ("reason", JVal.s r.reason),
    ("output", jOptStr r.output)]

/-! ## Policy decision client -/

/-- The Casbin policy evaluator: `enforcer.enforce(subject, object, action)`. -/
def Enforcer := String → String → String → Bool

/-! ## Mock tools and the execution gate (tools.py) -/

/-- Arguments of one tool call: a Python `Dict[str, str]`. -/
def Args := List (String × String)

instance : DecidableEq Args := by
  unfold Args
  infer_instance

instance : Repr Args := by
  unfold Args
  infer_instance

/-- One actual invocation of a tool implementation body (the call-counting stub's
record of a call). -/
structure ToolCall where
  name : String
  args : Args
deriving DecidableEq, Repr

/-- `get_kb_article` mock body (tools.py lines 5–7). -/
def get_kb_article (query : String) : String :=
  "KB Article Results for '" ++ query ++
    "':\n- VPN Setup Guide\n- MFA Troubleshooting\n- Remote Access Policy"

/-- `reset_password` mock body (tools.py lines 9–11). -/
def reset_password (username : String) : String :=
  "Password reset initiated for user '" ++ username ++ "'. (Mock execution)"

/-- Python `f(**args)` keyword unpacking for a function with one required string
parameter `param`: it succeeds exactly when `args` binds precisely that parameter,
and otherwise raises a `TypeError` before the function body runs. -/
def bind1 (param : String) (args : Args) : Except String String :=
  match args with
  | [(k, v)] =>
      if k = param then Except.ok v
      else Except.error ("TypeError: unexpected keyword argument '" ++ k ++ "'")
  | [] => Except.error ("TypeError: missing required argument '" ++ param ++ "'")
  | _ => Except.error "TypeError: unexpected keyword arguments"

/-- The bodies of the two registered tool implementations. The spec treats tool
implementations as external collaborators that return an output string or raise; the
gate is verified for every such pair of bodies, and `mockImpls` is the concrete pair
from tools.py. -/
structure ToolImpls where
  kb : String → Except String String
  rp : String → Except String String

/-- The concrete mock implementations of tools.py. -/
def mockImpls : ToolImpls :=
  ⟨fun query => Except.ok (get_kb_article query),
   fun username => Except.ok (reset_password username)⟩

/-- The dispatch block of `execute_tool_with_policy` (tools.py lines 52–57): route on
the tool name, unpack `**args`, run the implementation body. The second component is
the list of implementation invocations actually performed (empty when the name is
unknown or the unpacking raises before the body runs). -/
def dispatch_tool (impls : ToolImpls) (tool_name : String) (args : Args) :
    Except String String × List ToolCall :=
  if tool_name = "get_kb_article" then
    match bind1 "query" args with
    | Except.ok v => (impls.kb v, [⟨tool_name, args⟩])
    | Except.error e => (Except.error e, [])
  else if tool_name = "reset_password" then
    match bind1 "username" args with
    | Except.ok v => (impls.rp v, [⟨tool_name, args⟩])
    | Except.error e => (Except.error e, [])
  else
    (Except.ok ("Unknown tool '" ++ tool_name ++ "'."), [])

/-- The `base_log` dictionary of `execute_tool_with_policy` (tools.py lines 29–38). -/
def tool_base_log (user_id role tool_name : String) (args : Args)
    (request_context : List (String × JVal)) (allowed : Bool) : List (String × JVal) :=
  [("user_id", JVal.s user_id), ("role", JVal.s role), ("tool", JVal.s tool_name),
   ("args", jStrDict args), ("policy_obj", JVal.s ("tool:" ++ tool_name)),
   ("policy_act", JVal.s "execute"), ("allowed", JVal.b allowed),
   ("request_context", JVal.dict request_context)]

/-- `execute_tool_with_policy` (tools.py lines 13–78): the execution gate.
Returns the `ActionResult`, the audit records appended (in order), and the list of
tool-implementation invocations performed. -/
def execute_tool_with_policy (enforcer : Enforcer) (impls : ToolImpls)
    (user_id role tool_name : String) (args : Args)
    (request_context : List (String × JVal)) :
    ActionResult × List AuditRecord × List ToolCall :=
  let obj := "tool:" ++ tool_name
  let act := "execute"
  let allowed := enforcer role obj act
  let base_log := tool_base_log user_id role tool_name args request_context allowed
  if !allowed then
    ({ executed := false, tool := tool_name, args := args, decision := DecisionType.deny,
       reason := "Policy denied tool execution." },
     [⟨"tool_execution", base_log ++ [("decision", JVal.s "deny")]⟩],
     [])
  else
    match dispatch_tool impls tool_name args with
    | (Except.ok output, calls) =>
        ({ executed := true, tool := tool_name, args := args, decision := DecisionType.allow,
           reason := "Policy allowed tool execution.", output := Option.some output },
         [⟨"tool_execution",
           base_log ++ [("decision", JVal.s "allow"),
                        ("output_summary", JVal.s (output.take 200))]⟩],
         calls)
    | (Except.error e, calls) =>
        ({ executed := false, tool := tool_name, args := args, decision := DecisionType.allow,
           reason := "Tool execution failed: " ++ e, output := Option.none },
         [⟨"tool_execution",
           base_log ++ [("decision", JVal.s "allow"), ("error", JVal.s e)]⟩],
         calls)

/-! ## Planning-gate synthesizer (router.py) -/

/-- Python truthiness test `not ticket_id` on an `Optional[str]`: true for `None` and
for the empty string. -/
def noTicket : Option String → Bool
  | Option.none => true
  | Option.some s => s = ""

/-- `risk_from_intent` (router.py lines 34–40): the deterministic risk lookup. -/
def risk_from_intent : Intent → RiskTier
  | .informational => RiskTier.low
  | .operational => RiskTier.medium
  | .privileged => RiskTier.high
  | .ambiguous => RiskTier.medium

/-- Field names declared by the pydantic model `RoutingDecision` in schemas.py, whose
config is `extra = "forbid"`. -/
def routingDecisionFieldNames : List String :=
  ["intent", "risk_tier", "route_to", "required_prereqs", "recommended_tools",
   "explanation", "confidence", "policy_check"]

/-- Keyword arguments passed to the `RoutingDecision(...)` constructor at router.py
lines 100–115. Note the `notes` keyword, which `schemas.py` does not declare. -/
def routerCtorKwargs : List String :=
  ["intent", "risk_tier", "route_to", "required_prereqs", "recommended_tools",
   "explanation", "confidence", "notes", "policy_check"]

/-- Pydantic construction under `extra = "forbid"`: it succeeds exactly when every
keyword argument is a declared field, and raises a `ValidationError` otherwise. -/
def pydanticForbidOk (kwargs : List String) : Bool :=
  kwargs.all (fun k => routingDecisionFieldNames.contains k)

/-- The routing-decision value computed by `orchestrate_route` (router.py lines
53–115), taking the intent already produced by `classify_intent(prompt)` at line 53:
the routing logic reads the prompt only through that classification, and the claims
quantify over the classification result. This is the value the code passes to the
`RoutingDecision` constructor (minus the extra `notes` keyword, see
`orchestrate_route`). -/
def orchestrate_route_decision (enforcer : Enforcer) (role : String) (intent : Intent)
    (ticket_id : Option String) : RoutingDecision :=
  let risk := risk_from_intent intent
  let obj := "route:intent:" ++ intent.toStr
  let act := "allow"
  let allowed := enforcer role obj act
  let required : List String :=
    if intent = Intent.privileged ∧ noTicket ticket_id then ["ticket_id"] else []
  let recommended_tools :=
    if intent = Intent.privileged then ToolClass.restricted_tools else ToolClass.safe_tools
  let route_explain : RouteTo × String :=
    match intent with
    | Intent.privileged =>
        if !allowed then
          (RouteTo.human_service_desk,
           "Privileged request detected. Policy does not permit this role to route privileged actions to automation.")
        else if required ≠ [] then
          (RouteTo.human_service_desk,
           "Privileged request detected. Role permitted, but prerequisites missing for automated routing.")
        else
          (RouteTo.action_agent,
           "Privileged request detected. Role permitted and prerequisites satisfied. Route to Action Agent (execution gate will apply).")
    | Intent.operational =>
        if !allowed then
          (RouteTo.human_service_desk,
           "Operational request detected. Policy does not permit automated handling for this role.")
        else
          (RouteTo.action_agent,
           "Operational request detected. Role permitted. Route to Action Agent (execution gate will apply).")
    | Intent.informational =>
        (RouteTo.knowledge_agent,
         "Informational request detected. Route to Knowledge Agent / safe tools.")
    | Intent.ambiguous =>
        (RouteTo.knowledge_agent,
         "Intent ambiguous. Start with knowledge lookup / clarification before any action.")
  { intent := intent
    risk_tier := risk
    route_to := route_explain.1
    required_prereqs := required
    recommended_tools :=
      if intent ≠ Intent.ambiguous then recommended_tools else ToolClass.safe_tools
    explanation := route_explain.2
    confidence :=
      if intent = Intent.informational ∨ intent = Intent.privileged then (0.85 : Rat)
      else (0.65 : Rat)
    policy_check := ⟨obj, act, allowed, role⟩ }

/-- `orchestrate_route` (router.py lines 42–132). The constructor call at lines
100–115 passes a `notes` keyword that the pydantic model of schemas.py forbids
(`extra = "forbid"`, no `notes` field), so the construction raises a
`ValidationError`; the raise happens before the `log_event` call at line 117.
The first component is the returned decision or the raised exception; the second is
the list of audit records appended. -/
def orchestrate_route (enforcer : Enforcer) (user_id role : String) (intent : Intent)
    (prompt : String) (ticket_id : Option String)
    (extras : List (String × JVal)) :
    Except String RoutingDecision × List AuditRecord :=
  let d := orchestrate_route_decision enforcer role intent ticket_id
  if pydanticForbidOk routerCtorKwargs then
    (Except.ok d,
     [⟨"routing_decision",
       [("user_id", JVal.s user_id), ("role", JVal.s role), ("prompt", JVal.s prompt),
        ("ticket_id", jOptStr ticket_id), ("intent", JVal.s intent.toStr),
        ("risk_tier", JVal.s d.risk_tier.toStr), ("route_to", JVal.s d.route_to.toStr),
        ("required_prereqs", jStrList d.required_prereqs),
        ("policy_obj", JVal.s d.policy_check.policy_obj),
        ("policy_act", JVal.s d.policy_check.policy_act),
        ("allowed", JVal.b d.policy_check.allowed), ("extras", JVal.dict extras)]⟩])
  else
    (Except.error
      "ValidationError: RoutingDecision does not permit extra field 'notes'", [])

/-! ## Graph orchestrator node (graph.py lines 64–172) -/

/-- `orchestrator_node._node` (graph.py lines 84–170): the graph planning-gate
synthesizer. `proposed` is the untrusted draft `RoutingDecision` returned by the
LLM proposer; `ticket_raw` is `state.get("ticket_id")`, normalised by `or None` at
line 88. Returns the final decision and the audit records appended. -/
def orchestrator_node (enforcer : Enforcer) (user_id role : String)
    (ticket_raw : Option String) (prompt : String) (proposed : RoutingDecision) :
    RoutingDecision × List AuditRecord :=
  let ticket_id : Option String := if noTicket ticket_raw then Option.none else ticket_raw
  let obj := "route:intent:" ++ proposed.intent.toStr
  let act := "allow"
  let allowed := enforcer role obj act
  let required : List String :=
    if proposed.intent = Intent.privileged ∧ ticket_id = Option.none
        ∧ ¬ ("ticket_id" ∈ proposed.required_prereqs) then
      proposed.required_prereqs ++ ["ticket_id"]
    else
      proposed.required_prereqs
  let route_explain : RouteTo × String :=
    match proposed.intent with
    | Intent.privileged =>
        if !allowed then
          (RouteTo.human_service_desk,
           "Privileged request: policy does not allow automated routing for this role.")
        else if required ≠ [] then
          (RouteTo.human_service_desk,
           "Privileged request: prerequisites required before automation.")
        else
          (RouteTo.action_agent, proposed.explanation)
    | Intent.operational =>
        if !allowed then
          (RouteTo.human_service_desk,
           "Operational request: policy does not allow automated routing for this role.")
        else
          (RouteTo.action_agent, proposed.explanation)
    | Intent.informational =>
        (RouteTo.knowledge_agent, proposed.explanation)
    | Intent.ambiguous =>
        (RouteTo.knowledge_agent,
         "Intent ambiguous. Start with clarification / knowledge lookup before any action.")
  let final : RoutingDecision :=
    { intent := proposed.intent
      risk_tier := proposed.risk_tier
      route_to := route_explain.1
      required_prereqs := required
      recommended_tools := proposed.recommended_tools
      explanation := route_explain.2
      confidence := proposed.confidence
      policy_check := ⟨obj, act, allowed, role⟩ }
  (final,
   [⟨"routing_decision",
     [("user_id", JVal.s user_id), ("role", JVal.s role), ("prompt", JVal.s prompt),
      ("ticket_id", jOptStr ticket_id), ("routing", final.dump)]⟩])

/-! ## Bounded action loop (graph.py lines 26–61 and 182–258) -/

/-- One tool call proposed by the LLM in an `AIMessage` (`ai.tool_calls[i]`):
`{"name": ..., "args": ..., "id": ...}`. -/
structure ToolCallReq where
  name : String
  args : Args
  id : String
deriving DecidableEq, Repr

/-- The conversation messages of the action-agent loop. An `ai` message is kept as its
list of tool calls (its text content is not read by the loop); a `toolMsg` is the
`ToolMessage(content=..., tool_call_id=...)` appended at graph.py line 234. -/
inductive Msg
  | human (content : String)
  | ai (tool_calls : List ToolCallReq)
  | toolMsg (content : String) (tool_call_id : String)
deriving DecidableEq, Repr

/-- The untrusted proposer of the action loop: `llm.invoke(messages)` returning the
`tool_calls` of the produced `AIMessage` (empty when the response is a final answer). -/
def Proposer := List Msg → List ToolCallReq

/-- Python `s.startswith(pre)`. -/
def pyStartsWith (s pre : String) : Bool :=
  pre.data.isPrefixOf s.data

/-- Helper for `pyReplace`: replace the leftmost, non-overlapping occurrences of
`pat` in the character list. The fuel argument (instantiated with the length of the
list, which bounds the number of steps) makes the recursion structural. -/
def pyReplaceAux (pat repl : List Char) : Nat → List Char → List Char
  | _, [] => []
  | 0, l => l
  | fuel + 1, c :: cs =>
      if pat ≠ [] ∧ pat.isPrefixOf (c :: cs) then
        repl ++ pyReplaceAux pat repl fuel ((c :: cs).drop pat.length)
      else
        c :: pyReplaceAux pat repl fuel cs

/-- Python `s.replace(pat, repl)`: replace every non-overlapping occurrence of `pat`,
scanning from the left. -/
def pyReplace (s pat repl : String) : String :=
  ⟨pyReplaceAux pat.data repl.data s.data.length s.data⟩

/-- Python `s.strip()`: drop whitespace from both ends. -/
def pyStrip (s : String) : String :=
  ⟨((s.data.dropWhile Char.isWhitespace).reverse.dropWhile Char.isWhitespace).reverse⟩

/-- The body of a policy-gated tool wrapper built by `build_tools` (graph.py lines
31–59): call the execution gate with this wrapper's tool name and its single bound
argument, then fold the `ActionResult` into a string — `"DENIED: " + reason` on a
policy deny, otherwise `res.output or ""`. -/
def tool_wrapper_body (enforcer : Enforcer) (impls : ToolImpls)
    (user_id role : String) (ticket_id : Option String)
    (tool_name pname : String) (v : String) :
    String × List AuditRecord × List ToolCall :=
  let out := execute_tool_with_policy enforcer impls user_id role tool_name
    [(pname, v)] [("ticket_id", jOptStr ticket_id)]
  let res := out.1
  (if res.decision = DecisionType.deny then "DENIED: " ++ res.reason
   else res.output.getD "",
   out.2.1, out.2.2)

/-- The single bound parameter of the wrapper named `tool_name` in the tool list built
by `build_tools`, or `none` when no wrapper of that name is bound (graph.py line 217:
`next((t for t in tools if t.name == tool_name), None)`). -/
def bound_wrapper_param : String → Option String
  | "get_kb_article" => Option.some "query"
  | "reset_password" => Option.some "username"
  | _ => Option.none

/-- The mutable locals of `action_agent_node._node` (graph.py lines 197–202), with the
message list they evolve alongside. -/
structure LoopVars where
  messages : List Msg
  last_tool_used : String := ""
  last_args : Args := []
  last_output : String := ""
  decision : DecisionType := DecisionType.deny
  reason : String := "No tool executed."
deriving DecidableEq, Repr

/-- One iteration of the `for` body at graph.py lines 204–235. The proposer is
invoked on the current messages; with no tool calls the body breaks leaving the
locals untouched; otherwise the first call is dispatched — through the bound wrapper
when one exists (its argument validated at the `invoke` boundary, a mismatch raising
out of the node), or short-circuited to the literal not-found string — and the body
breaks after recording the outcome. Returns the updated locals, the audit records
appended and the tool-implementation invocations performed. -/
def action_iter (enforcer : Enforcer) (impls : ToolImpls) (user_id role : String)
    (ticket_id : Option String) (proposer : Proposer) (s : LoopVars) :
    Except String (LoopVars × List AuditRecord × List ToolCall) :=
  let calls := proposer s.messages
  let messages := s.messages ++ [Msg.ai calls]
  match calls with
  | [] => Except.ok ({ s with messages := messages }, [], [])
  | call :: _ =>
    let tool_name := call.name
    let tool_args := call.args
    let dispatched : Except String (String × List AuditRecord × List ToolCall) :=
      match bound_wrapper_param tool_name with
      | Option.none => Except.ok ("Tool '" ++ tool_name ++ "' not found.", [], [])
      | Option.some pname =>
          match bind1 pname tool_args with
          | Except.error e => Except.error e
          | Except.ok v =>
              Except.ok (tool_wrapper_body enforcer impls user_id role ticket_id
                tool_name pname v)
    match dispatched with
    | Except.error e => Except.error e
    | Except.ok (out, audit, tcalls) =>
        let decision_reason : DecisionType × String :=
          if pyStartsWith out "DENIED:" then
            (DecisionType.deny, pyStrip (pyReplace out "DENIED:" ""))
          else
            (DecisionType.allow, "Tool executed (policy-gated).")
        Except.ok
          ({ messages := messages ++ [Msg.toolMsg out call.id]
             last_tool_used := tool_name
             last_args := tool_args
             last_output := out
             decision := decision_reason.1
             reason := decision_reason.2 },
           audit, tcalls)

/-- The `for _ in range(max_tool_loops)` loop of graph.py lines 204–235. Both control
paths of the body end in `break` (line 210 on a tool-call-free response, line 235
after the single tool call), so with a positive budget the loop is one run of the
body and with budget `0` it never runs. -/
def action_loop (enforcer : Enforcer) (impls : ToolImpls) (user_id role : String)
    (ticket_id : Option String) (proposer : Proposer) (max_tool_loops : Nat)
    (s : LoopVars) : Except String (LoopVars × List AuditRecord × List ToolCall) :=
  match max_tool_loops with
  | 0 => Except.ok (s, [], [])
  | _ + 1 => action_iter enforcer impls user_id role ticket_id proposer s

/-- `action_agent_node._node` (graph.py lines 189–256): run the bounded loop from the
incoming messages, then assemble the final `ActionResult` and append the
`action_agent` audit record. `ticket_raw` is `state.get("ticket_id")`, normalised by
`or None` at line 192. Returns the `ActionResult`, the final messages, the audit
records appended (in order) and the tool-implementation invocations performed; a
`.error` is an exception raised out of the node. -/
def action_agent_node (enforcer : Enforcer) (impls : ToolImpls) (user_id role : String)
    (ticket_raw : Option String) (proposer : Proposer) (max_tool_loops : Nat)
    (messages0 : List Msg) :
    Except String (ActionResult × List Msg × List AuditRecord × List ToolCall) :=
  let ticket_id : Option String := if noTicket ticket_raw then Option.none else ticket_raw
  match action_loop enforcer impls user_id role ticket_id proposer max_tool_loops
      { messages := messages0 } with
  | Except.error e => Except.error e
  | Except.ok (s, audit, tcalls) =>
      let action_result : ActionResult :=
        { executed := s.decision = DecisionType.allow
          tool := if s.last_tool_used = "" then "none" else s.last_tool_used
          args := s.last_args
          decision := s.decision
          reason := s.reason
          output := if s.last_output = "" then Option.none else Option.some s.last_output }
      Except.ok
        (action_result, s.messages,
         audit ++
           [⟨"action_agent",
             [("user_id", JVal.s user_id), ("role", JVal.s role),
              ("ticket_id", jOptStr ticket_id),
              ("action_result", action_result.dump)]⟩],
         tcalls)

/-- The `ActionResult` of a completed action-agent run. -/
def nodeResult (r : Except String (ActionResult × List Msg × List AuditRecord × List ToolCall)) :
    Option ActionResult :=
  match r with
  | Except.ok x => Option.some x.1
  | Except.error _ => Option.none

/-- The audit records appended by an action-agent run (none when it raised). -/
def nodeAudit (r : Except String (ActionResult × List Msg × List AuditRecord × List ToolCall)) :
    List AuditRecord :=
  match r with
  | Except.ok x => x.2.2.1
  | Except.error _ => []

/-- The tool-implementation invocations performed by an action-agent run. -/
def nodeCalls (r : Except String (ActionResult × List Msg × List AuditRecord × List ToolCall)) :
    List ToolCall :=
  match r with
  | Except.ok x => x.2.2.2
  | Except.error _ => []

/-! ## Auxiliary lemmas and test fixtures -/

/-- A policy table that denies every query. -/
def denyAll : Enforcer := fun _ _ _ => false

/-- A policy table that allows every query. -/
def allowAll : Enforcer := fun _ _ _ => true

/-- Tool-implementation bodies that raise on every input. -/
def failingImpls : ToolImpls :=
  ⟨fun _ => Except.error "boom", fun _ => Except.error "boom"⟩

/-! ## C1 — a policy deny blocks tool execution -/

/-- C1: for every role, tool name and argument map for which the policy evaluator
denies `(role, "tool:" + tool_name, "execute")`, the execution gate returns
`executed = false`, `decision = deny` and no output, and performs no
tool-implementation invocation. -/
theorem C1_deny_blocks_execution (enforcer : Enforcer) (impls : ToolImpls)
    (user_id role tool_name : String) (args : Args) (ctx : List (String × JVal))
    (hdeny : enforcer role ("tool:" ++ tool_name) "execute" = false) :
    (execute_tool_with_policy enforcer impls user_id role tool_name args ctx).1.executed
        = false ∧
    (execute_tool_with_policy enforcer impls user_id role tool_name args ctx).1.decision
        = DecisionType.deny ∧
    (execute_tool_with_policy enforcer impls user_id role tool_name args ctx).1.output
        = Option.none ∧
    (execute_tool_with_policy enforcer impls user_id role tool_name args ctx).2.2 = [] := by
  unfold execute_tool_with_policy
  simp only [hdeny]
  exact ⟨rfl, rfl, rfl, rfl⟩

/-- C1 witness: a concrete denied call (all-deny policy, `reset_password`). -/
theorem C1_deny_blocks_execution_witness :
    (denyAll "employee" ("tool:" ++ "reset_password") "execute" = false) ∧
    ((execute_tool_with_policy denyAll mockImpls "alice" "employee" "reset_password"
        [("username", "john")] []).1.executed = false ∧
     (execute_tool_with_policy denyAll mockImpls "alice" "employee" "reset_password"
        [("username", "john")] []).1.decision = DecisionType.deny ∧
     (execute_tool_with_policy denyAll mockImpls "alice" "employee" "reset_password"
        [("username", "john")] []).1.output = Option.none ∧
     (execute_tool_with_policy denyAll mockImpls "alice" "employee" "reset_password"
        [("username", "john")] []).2.2 = []) :=
  ⟨rfl, C1_deny_blocks_execution denyAll mockImpls "alice" "employee" "reset_password"
      [("username", "john")] [] rfl⟩

/-! ## C7 — tool failures are contained at the gate -/

/-- C7: for every allowed tool call whose dispatch raises an internal error, the gate
returns normally with `executed = false`, `decision = allow`, no output and the failure
message in `reason`, and it appends exactly the audit record that carries
`decision = allow` together with the error detail. -/
theorem C7_failure_contained (enforcer : Enforcer) (impls : ToolImpls)
    (user_id role tool_name : String) (args : Args) (ctx : List (String × JVal))
    (msg : String) (icalls : List ToolCall)
    (hallow : enforcer role ("tool:" ++ tool_name) "execute" = true)
    (hfail : dispatch_tool impls tool_name args = (Except.error msg, icalls)) :
    (execute_tool_with_policy enforcer impls user_id role tool_name args ctx).1.executed
        = false ∧
    (execute_tool_with_policy enforcer impls user_id role tool_name args ctx).1.decision
        = DecisionType.allow ∧
    (execute_tool_with_policy enforcer impls user_id role tool_name args ctx).1.output
        = Option.none ∧
    (execute_tool_with_policy enforcer impls user_id role tool_name args ctx).1.reason
        = "Tool execution failed: " ++ msg ∧
    (execute_tool_with_policy enforcer impls user_id role tool_name args ctx).2.1
        = [⟨"tool_execution",
            tool_base_log user_id role tool_name args ctx true ++
              [("decision", JVal.s "allow"), ("error", JVal.s msg)]⟩] := by
  unfold execute_tool_with_policy
  simp only [hallow, hfail]
  exact ⟨rfl, rfl, rfl, rfl, rfl⟩

/-- C7 witness: an allowed `get_kb_article` call whose implementation body raises. -/
theorem C7_failure_contained_witness :
    (allowAll "it_admin" ("tool:" ++ "get_kb_article") "execute" = true) ∧
    (dispatch_tool failingImpls "get_kb_article" [("query", "vpn")] =
      (Except.error "boom", [⟨"get_kb_article", [("query", "vpn")]⟩])) ∧
    ((execute_tool_with_policy allowAll failingImpls "alice" "it_admin" "get_kb_article"
        [("query", "vpn")] []).1.executed = false ∧
     (execute_tool_with_policy allowAll failingImpls "alice" "it_admin" "get_kb_article"
        [("query", "vpn")] []).1.decision = DecisionType.allow ∧
     (execute_tool_with_policy allowAll failingImpls "alice" "it_admin" "get_kb_article"
        [("query", "vpn")] []).1.output = Option.none ∧
     (execute_tool_with_policy allowAll failingImpls "alice" "it_admin" "get_kb_article"
        [("query", "vpn")] []).1.reason = "Tool execution failed: " ++ "boom" ∧
     (execute_tool_with_policy allowAll failingImpls "alice" "it_admin" "get_kb_article"
        [("query", "vpn")] []).2.1
        = [⟨"tool_execution",
            tool_base_log "alice" "it_admin" "get_kb_article" [("query", "vpn")] [] true ++
              [("decision", JVal.s "allow"), ("error", JVal.s "boom")]⟩]) :=
  ⟨rfl, rfl, C7_failure_contained allowAll failingImpls "alice" "it_admin" "get_kb_article"
      [("query", "vpn")] [] "boom" [⟨"get_kb_article", [("query", "vpn")]⟩] rfl rfl⟩

/-! ## C6 — audit emission per gate call -/

/-- C6: the execution gate appends exactly one audit record on every branch, and so
does the graph planning-gate synthesizer; but every call to router.py's
`orchestrate_route` raises a `ValidationError` out of the `RoutingDecision(...)`
constructor (the extra `notes` keyword against the `extra = "forbid"` model of
schemas.py) before its `log_event` runs, so it appends zero audit records. -/
theorem C6_audit_per_call :
    (∀ (enforcer : Enforcer) (impls : ToolImpls) (user_id role tool_name : String)
        (args : Args) (ctx : List (String × JVal)),
      (execute_tool_with_policy enforcer impls user_id role tool_name args ctx).2.1.length
        = 1) ∧
    (∀ (enforcer : Enforcer) (user_id role : String) (ticket_raw : Option String)
        (prompt : String) (proposed : RoutingDecision),
      (orchestrator_node enforcer user_id role ticket_raw prompt proposed).2.length = 1) ∧
    (∀ (enforcer : Enforcer) (user_id role : String) (intent : Intent) (prompt : String)
        (ticket_id : Option String) (extras : List (String × JVal)),
      orchestrate_route enforcer user_id role intent prompt ticket_id extras =
        (Except.error "ValidationError: RoutingDecision does not permit extra field 'notes'",
         [])) := by
  refine ⟨?_, ?_, ?_⟩
  · intro enforcer impls user_id role tool_name args ctx
    unfold execute_tool_with_policy
    cases h : enforcer role ("tool:" ++ tool_name) "execute" with
    | false => simp [h]
    | true =>
      simp only [h]
      rcases hd : dispatch_tool impls tool_name args with ⟨res, icalls⟩
      cases res <;> simp
  · intro enforcer user_id role ticket_raw prompt proposed
    rfl
  · intro enforcer user_id role intent prompt ticket_id extras
    rfl

/-! ## C9 — risk tier versus the deterministic lookup -/

/-- A proposer draft that labels a privileged request as low risk. -/
def draftPrivLow : RoutingDecision :=
  { intent := Intent.privileged
    risk_tier := RiskTier.low
    route_to := RouteTo.action_agent
    required_prereqs := []
    recommended_tools := ToolClass.restricted_tools
    explanation := "draft"
    confidence := (0.5 : Rat)
    policy_check := ⟨"stale", "stale", true, "stale"⟩ }

/-- C9 counterexample: the graph orchestrator node keeps the proposer's `risk_tier`
(`low`) on a request whose intent is `privileged`, whereas the deterministic lookup on
that intent yields `high`; the final decision therefore violates the claimed
equation `risk_tier = risk_from_intent intent`. -/
theorem C9_risk_tier_cex :
    ((orchestrator_node allowAll "alice" "it_admin" (Option.some "T-100")
        "Reset John's password" draftPrivLow).1.risk_tier = RiskTier.low) ∧
    (risk_from_intent (orchestrator_node allowAll "alice" "it_admin" (Option.some "T-100")
        "Reset John's password" draftPrivLow).1.intent = RiskTier.high) ∧
    ¬ ((orchestrator_node allowAll "alice" "it_admin" (Option.some "T-100")
        "Reset John's password" draftPrivLow).1.risk_tier =
      risk_from_intent (orchestrator_node allowAll "alice" "it_admin" (Option.some "T-100")
        "Reset John's password" draftPrivLow).1.intent) :=
  ⟨rfl, rfl, fun h => nomatch h⟩

/-- C9 (amended): router.py's synthesizer computes `risk_tier` by the deterministic
lookup on the intent, while graph.py's orchestrator node copies `risk_tier` verbatim
from the proposer's draft. -/
theorem C9_risk_tier_amended :
    (∀ (enforcer : Enforcer) (role : String) (intent : Intent) (ticket_id : Option String),
      (orchestrate_route_decision enforcer role intent ticket_id).risk_tier =
        risk_from_intent intent) ∧
    (∀ (enforcer : Enforcer) (user_id role : String) (ticket_raw : Option String)
        (prompt : String) (proposed : RoutingDecision),
      (orchestrator_node enforcer user_id role ticket_raw prompt proposed).1.risk_tier =
        proposed.risk_tier) :=
  ⟨fun _ _ _ _ => rfl, fun _ _ _ _ _ _ => rfl⟩

/-! ## C4 — the proposer cannot influence the final route or policy check -/

/-- C4: two proposer drafts that differ only in their suggested `route_to` and/or
`policy_check` produce identical synthesizer outputs; the final `policy_check` is
rebuilt from the fresh planning-gate verdict in both synthesizers (object
`route:intent:<intent>`, action `allow`, the queried role and the evaluator's
answer), so the proposer's `route_to` and `policy_check` are never taken over. -/
theorem C4_proposer_not_trusted (enforcer : Enforcer) (user_id role : String)
    (ticket_raw : Option String) (prompt : String) (p1 p2 : RoutingDecision)
    (hi : p1.intent = p2.intent) (hr : p1.risk_tier = p2.risk_tier)
    (hq : p1.required_prereqs = p2.required_prereqs)
    (ht : p1.recommended_tools = p2.recommended_tools)
    (he : p1.explanation = p2.explanation) (hc : p1.confidence = p2.confidence) :
    (orchestrator_node enforcer user_id role ticket_raw prompt p1 =
      orchestrator_node enforcer user_id role ticket_raw prompt p2) ∧
    (∀ p : RoutingDecision,
      (orchestrator_node enforcer user_id role ticket_raw prompt p).1.policy_check =
        ⟨"route:intent:" ++ p.intent.toStr, "allow",
         enforcer role ("route:intent:" ++ p.intent.toStr) "allow", role⟩) ∧
    (∀ (intent : Intent) (ticket_id : Option String),
      (orchestrate_route_decision enforcer role intent ticket_id).policy_check =
        ⟨"route:intent:" ++ intent.toStr, "allow",
         enforcer role ("route:intent:" ++ intent.toStr) "allow", role⟩) := by
  refine ⟨?_, fun p => rfl, fun intent ticket_id => rfl⟩
  obtain ⟨i1, r1, x1, q1, t1, e1, c1, pc1⟩ := p1
  obtain ⟨i2, r2, x2, q2, t2, e2, c2, pc2⟩ := p2
  simp only at hi hr hq ht he hc
  subst hi hr hq ht he hc
  rfl

/-- A copy of `draftPrivLow` with a different suggested route and a forged policy
check. -/
def draftPrivLowForged : RoutingDecision :=
  { draftPrivLow with
    route_to := RouteTo.knowledge_agent
    policy_check := ⟨"forged", "allow", true, "intruder"⟩ }

/-- C4 witness: two concrete drafts that differ exactly in `route_to` and
`policy_check` yield the same synthesizer output. -/
theorem C4_proposer_not_trusted_witness :
    (draftPrivLow.intent = draftPrivLowForged.intent) ∧
    (orchestrator_node allowAll "alice" "it_admin" (Option.some "T-100") "p" draftPrivLow =
      orchestrator_node allowAll "alice" "it_admin" (Option.some "T-100") "p"
        draftPrivLowForged) :=
  ⟨rfl,
   (C4_proposer_not_trusted allowAll "alice" "it_admin" (Option.some "T-100") "p"
      draftPrivLow draftPrivLowForged rfl rfl rfl rfl rfl rfl).1⟩

/-! ## C2 — privileged routing precedence -/

/-- C2: for a request classified `privileged`, both synthesizers decide the route with
the allow-check before the prerequisite-check: a policy deny routes to the human desk
even when no prerequisite is outstanding; an allow with outstanding prerequisites
still routes to the human desk; an allow with no outstanding prerequisite routes to
the action agent. -/
theorem C2_privileged_precedence (enforcer : Enforcer) (user_id role : String)
    (ticket_raw : Option String) (prompt : String) (proposed : RoutingDecision)
    (ticket_id : Option String) (hintent : proposed.intent = Intent.privileged) :
    ((enforcer role "route:intent:privileged" "allow" = false →
        (orchestrator_node enforcer user_id role ticket_raw prompt proposed).1.route_to =
          RouteTo.human_service_desk) ∧
     (enforcer role "route:intent:privileged" "allow" = true →
        (orchestrator_node enforcer user_id role ticket_raw prompt proposed).1.required_prereqs
          ≠ [] →
        (orchestrator_node enforcer user_id role ticket_raw prompt proposed).1.route_to =
          RouteTo.human_service_desk) ∧
     (enforcer role "route:intent:privileged" "allow" = true →
        (orchestrator_node enforcer user_id role ticket_raw prompt proposed).1.required_prereqs
          = [] →
        (orchestrator_node enforcer user_id role ticket_raw prompt proposed).1.route_to =
          RouteTo.action_agent)) ∧
    ((enforcer role "route:intent:privileged" "allow" = false →
        (orchestrate_route_decision enforcer role Intent.privileged ticket_id).route_to =
          RouteTo.human_service_desk) ∧
     (enforcer role "route:intent:privileged" "allow" = true →
        (orchestrate_route_decision enforcer role Intent.privileged ticket_id).required_prereqs
          ≠ [] →
        (orchestrate_route_decision enforcer role Intent.privileged ticket_id).route_to =
          RouteTo.human_service_desk) ∧
     (enforcer role "route:intent:privileged" "allow" = true →
        (orchestrate_route_decision enforcer role Intent.privileged ticket_id).required_prereqs
          = [] →
        (orchestrate_route_decision enforcer role Intent.privileged ticket_id).route_to =
          RouteTo.action_agent)) := by
  constructor
  · refine ⟨?_, ?_, ?_⟩
    · intro ha
      unfold orchestrator_node
      simp only [hintent, Intent.toStr, String.reduceAppend]
      simp [ha]
    · intro ha hreq
      unfold orchestrator_node at hreq ⊢
      simp only [hintent, Intent.toStr, String.reduceAppend] at hreq ⊢
      simp only [ha] at hreq ⊢
      simp at hreq ⊢
      simp [hreq]
    · intro ha hreq
      unfold orchestrator_node at hreq ⊢
      simp only [hintent, Intent.toStr, String.reduceAppend] at hreq ⊢
      simp only [ha] at hreq ⊢
      simp at hreq ⊢
      simp [hreq]
  · refine ⟨?_, ?_, ?_⟩
    · intro ha
      unfold orchestrate_route_decision
      simp only [Intent.toStr, String.reduceAppend]
      simp [ha]
    · intro ha hreq
      unfold orchestrate_route_decision at hreq ⊢
      simp only [Intent.toStr, String.reduceAppend] at hreq ⊢
      simp only [ha] at hreq ⊢
      simp at hreq ⊢
      simp [hreq]
    · intro ha hreq
      unfold orchestrate_route_decision at hreq ⊢
      simp only [Intent.toStr, String.reduceAppend] at hreq ⊢
      simp only [ha] at hreq ⊢
      simp at hreq ⊢
      simp [hreq]

/-- C2 witness: a concrete denied privileged draft (ticket present, so no
prerequisite is outstanding) is still routed to the human desk. -/
theorem C2_privileged_precedence_witness :
    (draftPrivLow.intent = Intent.privileged) ∧
    (denyAll "employee" "route:intent:privileged" "allow" = false) ∧
    ((orchestrator_node denyAll "alice" "employee" (Option.some "T-100") "p"
        draftPrivLow).1.route_to = RouteTo.human_service_desk) :=
  ⟨rfl, rfl,
   ((C2_privileged_precedence denyAll "alice" "employee" (Option.some "T-100") "p"
      draftPrivLow (Option.some "T-100") rfl).1.1 rfl)⟩

/-! ## C3 — the ticket prerequisite is forced, idempotently -/

/-- C3: for a `privileged` request without a ticket reference, both synthesizers force
the `ticket_id` prerequisite into the final `required_prereqs` idempotently — it is
appended only when absent, so its final count is the maximum of the draft count and
one — and route to the human desk whatever the policy verdict. -/
theorem C3_ticket_prereq_forced (enforcer : Enforcer) (user_id role : String)
    (ticket_raw : Option String) (prompt : String) (proposed : RoutingDecision)
    (ticket_id : Option String)
    (hintent : proposed.intent = Intent.privileged)
    (hraw : noTicket ticket_raw = true) (hticket : noTicket ticket_id = true) :
    (("ticket_id" ∈
        (orchestrator_node enforcer user_id role ticket_raw prompt proposed).1.required_prereqs) ∧
     ((orchestrator_node enforcer user_id role ticket_raw prompt proposed).1.required_prereqs.count
        "ticket_id" = max (proposed.required_prereqs.count "ticket_id") 1) ∧
     ((orchestrator_node enforcer user_id role ticket_raw prompt proposed).1.route_to =
        RouteTo.human_service_desk)) ∧
    (("ticket_id" ∈
        (orchestrate_route_decision enforcer role Intent.privileged ticket_id).required_prereqs) ∧
     ((orchestrate_route_decision enforcer role Intent.privileged ticket_id).required_prereqs.count
        "ticket_id" = 1) ∧
     ((orchestrate_route_decision enforcer role Intent.privileged ticket_id).route_to =
        RouteTo.human_service_desk)) := by
  have hreq : (orchestrator_node enforcer user_id role ticket_raw prompt proposed).1.required_prereqs
      = (if "ticket_id" ∈ proposed.required_prereqs then proposed.required_prereqs
         else proposed.required_prereqs ++ ["ticket_id"]) := by
    unfold orchestrator_node
    simp only [hintent, hraw, if_true]
    by_cases hm : "ticket_id" ∈ proposed.required_prereqs <;> simp [hm]
  have hroute : (orchestrator_node enforcer user_id role ticket_raw prompt proposed).1.route_to
      = RouteTo.human_service_desk := by
    unfold orchestrator_node
    simp only [hintent, hraw, if_true]
    cases ha : enforcer role ("route:intent:" ++ Intent.toStr Intent.privileged) "allow" with
    | false => simp [ha]
    | true =>
      by_cases hm : "ticket_id" ∈ proposed.required_prereqs
      · simp [ha, hm, List.ne_nil_of_mem hm]
      · simp [ha, hm]
  have hreqr : (orchestrate_route_decision enforcer role Intent.privileged ticket_id).required_prereqs
      = ["ticket_id"] := by
    unfold orchestrate_route_decision
    simp [hticket]
  have hrouter : (orchestrate_route_decision enforcer role Intent.privileged ticket_id).route_to
      = RouteTo.human_service_desk := by
    unfold orchestrate_route_decision
    cases ha : enforcer role ("route:intent:" ++ Intent.toStr Intent.privileged) "allow" with
    | false => simp [hticket, ha]
    | true => simp [hticket, ha]
  refine ⟨⟨?_, ?_, hroute⟩, ⟨?_, ?_, hrouter⟩⟩
  · rw [hreq]
    by_cases hm : "ticket_id" ∈ proposed.required_prereqs <;> simp [hm]
  · rw [hreq]
    by_cases hm : "ticket_id" ∈ proposed.required_prereqs
    · have h1 : 1 ≤ proposed.required_prereqs.count "ticket_id" :=
        List.count_pos_iff.mpr hm
      simp only [hm, if_true]
      omega
    · simp only [hm, if_false]
      simp [List.count_append, List.count_eq_zero.mpr hm]
  · rw [hreqr]; simp
  · rw [hreqr]; simp

/-- C3 witness: a concrete privileged draft with no ticket anywhere gains the
`ticket_id` prerequisite once and is routed to the human desk even under an
all-allow policy. -/
theorem C3_ticket_prereq_forced_witness :
    (draftPrivLow.intent = Intent.privileged) ∧
    (noTicket Option.none = true) ∧
    (("ticket_id" ∈ (orchestrator_node allowAll "alice" "it_admin" Option.none "p"
        draftPrivLow).1.required_prereqs) ∧
     ((orchestrator_node allowAll "alice" "it_admin" Option.none "p"
        draftPrivLow).1.required_prereqs.count "ticket_id" =
        max (draftPrivLow.required_prereqs.count "ticket_id") 1) ∧
     ((orchestrator_node allowAll "alice" "it_admin" Option.none "p"
        draftPrivLow).1.route_to = RouteTo.human_service_desk)) :=
  ⟨rfl, rfl,
   (C3_ticket_prereq_forced allowAll "alice" "it_admin" Option.none "p" draftPrivLow
      Option.none rfl rfl rfl).1⟩

/-! ## C5 — the ActionResult data invariant -/

/-- A proposer whose every response calls `reset_password` for john. -/
def proposeResetJohn : Proposer :=
  fun _ => [⟨"reset_password", [("username", "john")], "call_1"⟩]

/-- C5 counterexample: in the bounded action loop, a denied tool call yields an
`ActionResult` with `decision = deny` and `output` present (the DENIED message), so
the claimed clause "decision = deny implies output is absent" fails on the loop. -/
theorem C5_invariant_cex :
    (nodeResult (action_agent_node denyAll mockImpls "alice" "employee" Option.none
        proposeResetJohn 2 [Msg.human "Reset John's password"]) =
      Option.some
        { executed := false, tool := "reset_password", args := [("username", "john")],
          decision := DecisionType.deny, reason := "Policy denied tool execution.",
          output := Option.some "DENIED: Policy denied tool execution." }) ∧
    ¬ (∀ r : ActionResult,
        nodeResult (action_agent_node denyAll mockImpls "alice" "employee" Option.none
          proposeResetJohn 2 [Msg.human "Reset John's password"]) = Option.some r →
        r.decision = DecisionType.deny → r.output = Option.none) := by
  refine ⟨rfl, fun h => ?_⟩
  have := h { executed := false, tool := "reset_password", args := [("username", "john")],
              decision := DecisionType.deny, reason := "Policy denied tool execution.",
              output := Option.some "DENIED: Policy denied tool execution." } rfl rfl
  simp at this

/-- C5 (amended): every `ActionResult` of the execution gate satisfies the full
invariant (`executed = true` implies `decision = allow`; `decision = deny` implies
`executed = false` and no output); every `ActionResult` of the bounded action loop
satisfies `executed = true` exactly when `decision = allow` (so a deny is never marked
executed), though a denied tool call leaves the DENIED message in `output`. -/
theorem C5_invariant_amended :
    (∀ (enforcer : Enforcer) (impls : ToolImpls) (user_id role tool_name : String)
        (args : Args) (ctx : List (String × JVal)),
      ((execute_tool_with_policy enforcer impls user_id role tool_name args ctx).1.executed
          = true →
        (execute_tool_with_policy enforcer impls user_id role tool_name args ctx).1.decision
          = DecisionType.allow) ∧
      ((execute_tool_with_policy enforcer impls user_id role tool_name args ctx).1.decision
          = DecisionType.deny →
        (execute_tool_with_policy enforcer impls user_id role tool_name args ctx).1.executed
          = false ∧
        (execute_tool_with_policy enforcer impls user_id role tool_name args ctx).1.output
          = Option.none)) ∧
    (∀ (enforcer : Enforcer) (impls : ToolImpls) (user_id role : String)
        (ticket_raw : Option String) (proposer : Proposer) (n : Nat) (m0 : List Msg)
        (r : ActionResult),
      nodeResult (action_agent_node enforcer impls user_id role ticket_raw proposer n m0)
        = Option.some r →
      (r.executed = true ↔ r.decision = DecisionType.allow)) := by
  constructor
  · intro enforcer impls user_id role tool_name args ctx
    unfold execute_tool_with_policy
    cases h : enforcer role ("tool:" ++ tool_name) "execute" with
    | false => simp [h]
    | true =>
      rcases hd : dispatch_tool impls tool_name args with ⟨res, icalls⟩
      cases res <;> simp [h, hd]
  · intro enforcer impls user_id role ticket_raw proposer n m0 r h
    unfold action_agent_node at h
    unfold nodeResult at h
    split at h
    · rename_i x heq
      simp only [] at heq
      split at heq
      · exact absurd heq (by simp)
      · injection heq with heq2
        subst heq2
        simp only [Option.some.injEq] at h
        subst h
        simp
    · exact absurd h (by simp)

/-- C5 witness: a concrete run with no tool call satisfies the loop half of the
amended invariant. -/
theorem C5_invariant_amended_witness :
    (nodeResult (action_agent_node denyAll mockImpls "alice" "employee" Option.none
        (fun _ => []) 2 [Msg.human "hi"]) =
      Option.some
        { executed := false, tool := "none", args := [], decision := DecisionType.deny,
          reason := "No tool executed.", output := Option.none }) ∧
    (({ executed := false, tool := "none", args := [], decision := DecisionType.deny,
        reason := "No tool executed.", output := Option.none } : ActionResult).executed = true ↔
     ({ executed := false, tool := "none", args := [], decision := DecisionType.deny,
        reason := "No tool executed.", output := Option.none } : ActionResult).decision =
       DecisionType.allow) :=
  ⟨rfl, C5_invariant_amended.2 denyAll mockImpls "alice" "employee" Option.none
      (fun _ => []) 2 [Msg.human "hi"] _ rfl⟩

/-! ## C8 — the bounded loop executes at most one tool call -/

/-- The dispatcher performs at most one tool-implementation invocation. -/
theorem dispatch_tool_calls_le_one (impls : ToolImpls) (tool_name : String) (args : Args) :
    (dispatch_tool impls tool_name args).2.length ≤ 1 := by
  unfold dispatch_tool
  split
  · cases hb : bind1 "query" args <;> simp [hb]
  · split
    · cases hb : bind1 "username" args <;> simp [hb]
    · simp

/-- The execution gate performs at most one tool-implementation invocation. -/
theorem execute_tool_calls_le_one (enforcer : Enforcer) (impls : ToolImpls)
    (user_id role tool_name : String) (args : Args) (ctx : List (String × JVal)) :
    (execute_tool_with_policy enforcer impls user_id role tool_name args ctx).2.2.length
      ≤ 1 := by
  unfold execute_tool_with_policy
  cases h : enforcer role ("tool:" ++ tool_name) "execute" with
  | false => simp [h]
  | true =>
    have hle := dispatch_tool_calls_le_one impls tool_name args
    rcases hd : dispatch_tool impls tool_name args with ⟨res, icalls⟩
    rw [hd] at hle
    cases res <;> simpa [h, hd] using hle

/-- One loop iteration performs at most one tool-implementation invocation. -/
theorem action_iter_calls_le_one (enforcer : Enforcer) (impls : ToolImpls)
    (user_id role : String) (ticket_id : Option String) (proposer : Proposer)
    (s : LoopVars) (out : LoopVars × List AuditRecord × List ToolCall)
    (h : action_iter enforcer impls user_id role ticket_id proposer s = Except.ok out) :
    out.2.2.length ≤ 1 := by
  unfold action_iter at h
  cases hp : proposer s.messages with
  | nil =>
    rw [hp] at h
    simp only [] at h
    injection h with h2
    subst h2
    simp
  | cons call rest =>
    rw [hp] at h
    simp only [] at h
    cases hw : bound_wrapper_param call.name with
    | none =>
      rw [hw] at h
      simp only [] at h
      injection h with h2
      subst h2
      simp
    | some pname =>
      rw [hw] at h
      simp only [] at h
      cases hb : bind1 pname call.args with
      | error e => rw [hb] at h; exact absurd h (by simp)
      | ok v =>
        rw [hb] at h
        simp only [] at h
        injection h with h2
        subst h2
        simp only [tool_wrapper_body]
        exact execute_tool_calls_le_one enforcer impls user_id role call.name
          [(pname, v)] [("ticket_id", jOptStr ticket_id)]

/-- C8: with any iteration budget of at least 1, the action loop behaves exactly as
with budget 1 (the single-call cutoff: every path of the body breaks), executes at
most one tool call, and when the first proposer response contains no tool call it
stops at once with the `executed = false, tool = "none", decision = deny,
reason = "No tool executed."` result, performing no tool-implementation invocation
and appending only the single `action_agent` audit record. -/
theorem C8_single_call_cutoff (enforcer : Enforcer) (impls : ToolImpls)
    (user_id role : String) (ticket_raw : Option String) (proposer : Proposer)
    (m0 : List Msg) (n : Nat) (hn : 1 ≤ n) :
    (nodeCalls (action_agent_node enforcer impls user_id role ticket_raw proposer n m0)).length
      ≤ 1 ∧
    action_agent_node enforcer impls user_id role ticket_raw proposer n m0 =
      action_agent_node enforcer impls user_id role ticket_raw proposer 1 m0 ∧
    (proposer m0 = [] →
      nodeResult (action_agent_node enforcer impls user_id role ticket_raw proposer n m0) =
        Option.some
          { executed := false, tool := "none", args := [], decision := DecisionType.deny,
            reason := "No tool executed.", output := Option.none } ∧
      nodeCalls (action_agent_node enforcer impls user_id role ticket_raw proposer n m0)
        = [] ∧
      (nodeAudit (action_agent_node enforcer impls user_id role ticket_raw proposer n m0)).length
        = 1) := by
  obtain ⟨k, rfl⟩ : ∃ k, n = k + 1 := ⟨n - 1, by omega⟩
  refine ⟨?_, rfl, fun hp => ?_⟩
  · unfold action_agent_node
    unfold nodeCalls
    generalize (if noTicket ticket_raw = true then Option.none else ticket_raw : Option String)
      = tid
    split
    · rename_i x heq
      simp only [] at heq
      split at heq
      · exact absurd heq (by simp)
      · rename_i s audit tcalls hsc
        injection heq with h2
        subst h2
        exact action_iter_calls_le_one enforcer impls user_id role tid proposer _ _ hsc
    · simp
  · refine ⟨?_, ?_, ?_⟩ <;>
      simp [action_agent_node, action_loop, action_iter, hp, nodeResult, nodeCalls, nodeAudit]

/-- C8 witness: a concrete run with budget 2 and a proposer that never calls a tool. -/
theorem C8_single_call_cutoff_witness :
    (1 ≤ 2) ∧
    ((fun (_ : List Msg) => ([] : List ToolCallReq)) [Msg.human "hi"] = []) ∧
    (nodeResult (action_agent_node denyAll mockImpls "alice" "employee" Option.none
        (fun _ => []) 2 [Msg.human "hi"]) =
      Option.some
        { executed := false, tool := "none", args := [], decision := DecisionType.deny,
          reason := "No tool executed.", output := Option.none }) :=
  ⟨by omega, rfl,
   ((C8_single_call_cutoff denyAll mockImpls "alice" "employee" Option.none
      (fun _ => []) [Msg.human "hi"] 2 (by omega)).2.2 rfl).1⟩

/-! ## C10 — the loop's decision comes from the output string, not the gate result -/

/-- Tool-implementation bodies whose KB lookup legitimately returns a string that
begins with the DENIED marker. -/
def spoofImpls : ToolImpls :=
  ⟨fun _ => Except.ok "DENIED: spoofed by kb", fun u => Except.ok (reset_password u)⟩

/-- C10: the loop derives `decision`/`executed` only from whether the dispatched
call's output string starts with `"DENIED:"`. (a) If an executed, policy-allowed tool
returns an output beginning with `"DENIED:"`, the loop reports `decision = deny` and
`executed = false`. (b) If the proposed tool name has no bound wrapper, the dispatch
yields the literal `"Tool '<name>' not found."` string and the loop reports
`executed = true` and `decision = allow`, although no implementation was invoked and
no policy check was audited (the only audit record is the `action_agent` one). -/
theorem C10_decision_from_output_string :
    (∀ (enforcer : Enforcer) (impls : ToolImpls) (user_id role : String)
        (ticket_raw : Option String) (proposer : Proposer) (m0 : List Msg) (n : Nat)
        (name pname v cid outstr : String) (args0 : Args) (icalls : List ToolCall),
      1 ≤ n →
      proposer m0 = [⟨name, args0, cid⟩] →
      bound_wrapper_param name = Option.some pname →
      bind1 pname args0 = Except.ok v →
      enforcer role ("tool:" ++ name) "execute" = true →
      dispatch_tool impls name [(pname, v)] = (Except.ok outstr, icalls) →
      pyStartsWith outstr "DENIED:" = true →
      (nodeResult (action_agent_node enforcer impls user_id role ticket_raw proposer n m0)).map
          (fun r => (r.executed, r.decision)) =
        Option.some (false, DecisionType.deny)) ∧
    (∀ (enforcer : Enforcer) (impls : ToolImpls) (user_id role : String)
        (ticket_raw : Option String) (proposer : Proposer) (m0 : List Msg) (n : Nat)
        (name cid : String) (args0 : Args),
      1 ≤ n →
      proposer m0 = [⟨name, args0, cid⟩] →
      bound_wrapper_param name = Option.none →
      (nodeResult (action_agent_node enforcer impls user_id role ticket_raw proposer n m0)).map
          (fun r => (r.executed, r.decision, r.output)) =
        Option.some (true, DecisionType.allow,
          Option.some ("Tool '" ++ name ++ "' not found.")) ∧
      nodeCalls (action_agent_node enforcer impls user_id role ticket_raw proposer n m0)
        = [] ∧
      (nodeAudit (action_agent_node enforcer impls user_id role ticket_raw proposer n m0)).length
        = 1) := by
  constructor
  · intro enforcer impls user_id role ticket_raw proposer m0 n name pname v cid outstr
      args0 icalls hn hp hw hb hallow hdisp hden
    obtain ⟨k, rfl⟩ : ∃ k, n = k + 1 := ⟨n - 1, by omega⟩
    simp [action_agent_node, action_loop, action_iter, hp, hw, hb, tool_wrapper_body,
      execute_tool_with_policy, hallow, hdisp, hden, nodeResult]
  · intro enforcer impls user_id role ticket_raw proposer m0 n name cid args0 hn hp hw
    obtain ⟨k, rfl⟩ : ∃ k, n = k + 1 := ⟨n - 1, by omega⟩
    have hsw : pyStartsWith ("Tool '" ++ name ++ "' not found.") "DENIED:" = false := by
      simp [pyStartsWith, String.data_append, List.isPrefixOf]
    have hne : ("Tool '" ++ name ++ "' not found.") ≠ "" := by
      intro h
      have := congrArg String.data h
      simp [String.data_append] at this
    refine ⟨?_, ?_, ?_⟩ <;>
      simp [action_agent_node, action_loop, action_iter, hp, hw, hsw, hne,
        nodeResult, nodeCalls, nodeAudit]

/-- C10 witness: a spoofed DENIED-prefixed KB output makes an allowed, executed call
report deny, and an unbound tool name reports an executed allow with the not-found
string. -/
theorem C10_decision_from_output_string_witness :
    (pyStartsWith "DENIED: spoofed by kb" "DENIED:" = true) ∧
    (bound_wrapper_param "bogus" = Option.none) ∧
    ((nodeResult (action_agent_node allowAll spoofImpls "alice" "it_admin" Option.none
        (fun _ => [⟨"get_kb_article", [("query", "vpn")], "c1"⟩]) 2 [Msg.human "p"])).map
        (fun r => (r.executed, r.decision)) = Option.some (false, DecisionType.deny)) ∧
    ((nodeResult (action_agent_node allowAll mockImpls "alice" "it_admin" Option.none
        (fun _ => [⟨"bogus", [("x", "y")], "c2"⟩]) 2 [Msg.human "p"])).map
        (fun r => (r.executed, r.decision, r.output)) =
      Option.some (true, DecisionType.allow,
        Option.some ("Tool '" ++ "bogus" ++ "' not found."))) :=
  ⟨rfl, rfl,
   C10_decision_from_output_string.1 allowAll spoofImpls "alice" "it_admin" Option.none
     (fun _ => [⟨"get_kb_article", [("query", "vpn")], "c1"⟩]) [Msg.human "p"] 2
     "get_kb_article" "query" "vpn" "c1" "DENIED: spoofed by kb" [("query", "vpn")]
     [⟨"get_kb_article", [("query", "vpn")]⟩] (by omega) rfl rfl rfl rfl rfl rfl,
   (C10_decision_from_output_string.2 allowAll mockImpls "alice" "it_admin" Option.none
     (fun _ => [⟨"bogus", [("x", "y")], "c2"⟩]) [Msg.human "p"] 2
     "bogus" "c2" [("x", "y")] (by omega) rfl rfl).1⟩
